import Mathlib

/-!
Shallow embedding of `src/pathway-service/simple_pathway_service.py`
(`AdvancedLiveDataService`).  Python dict accesses with `.get` become
`Option` fields; JSON bodies of HTTP responses become typed structures;
every network call is an oracle parameter (an `Env` record) so that the
pure control flow of the service can be proved about.  Wall-clock
timestamps carried only for display (`timestamp` fields set from
`datetime.now()`) are not modelled; times used in scheduling decisions
are modelled as integer seconds.
-/

set_option maxRecDepth 8000

/-- The `config` sub-dictionary of a registered source: `cities` and
`apiKey` are read with `.get`, so both are optional. -/
structure WeatherConfig where
  cities : Option (List String) := none
  apiKey : Option String := none
  deriving DecidableEq

/-- One registered source configuration as returned by the registry
backend.  `sourceId`, `sourceType`, `sourceName` are accessed with
`source_config[...]` (required); the rest with `.get` (optional).
`lastIngestedAt` is modelled as integer seconds on the same clock as
`now`; `isActive` is the truthiness of the JSON value, restricted to
booleans. -/
structure SourceConfig where
  sourceId : String
  sourceType : String
  sourceName : String
  sourceUrl : Option String := none
  config : WeatherConfig := {}
  ingestionInterval : Option Int := none
  status : Option String := none
  isActive : Option Bool := none
  lastIngestedAt : Option Int := none
  maxEntries : Nat := 0
  deriving DecidableEq

/-- Outcome of the per-source branch of `run_source_monitoring`
(lines 352-382): inactive sources are logged and skipped, active ones
are processed when never ingested or when the elapsed time reaches the
interval, otherwise the next-run delay is logged. -/
inductive Decision where
  | inactive
  | notDue
  | processed
  deriving DecidableEq

/-- The scheduling decision of `run_source_monitoring` for one source:
`source.get('status') == 'active' and source.get('isActive')`, then
`interval = source.get('ingestionInterval', 300)` and
`time_diff >= interval` with `time_diff` measured from
`lastIngestedAt` (absent means never ingested, processed now). -/
def due_decision (now : Int) (s : SourceConfig) : Decision :=
  if s.status = some "active" ∧ s.isActive = some true then
    match s.lastIngestedAt with
    | none => .processed
    | some t =>
      if now - t ≥ s.ingestionInterval.getD 300 then .processed else .notDue
  else .inactive

/-- Outcome of the registry GET in `get_registered_sources`: a response
with a status and a parsed JSON body whose `sources` field may be
absent, or a raised transport exception. -/
inductive RegistryOutcome where
  | ok (status : Nat) (sources : Option (List SourceConfig))
  | exn

/-- Embedding of `get_registered_sources` (lines 24-39): on HTTP 200
return `data.get('sources', [])`; on any other status or any raised
exception return the empty list. -/
def get_registered_sources : RegistryOutcome → List SourceConfig
  | .ok status sources => if status = 200 then sources.getD [] else []
  | .exn => []

/-- Outcome of the ingest POST in `send_data_to_backend`: a response
with a status, the parsed JSON body message field (absent when the body
has no `message` key), and the raw body text; or a raised exception
(connection failure, timeout, unparsable 200 body) carrying its
rendered description. -/
inductive PostOutcome where
  | ok (status : Nat) (message : Option String) (text : String)
  | exn (err : String)

/-- Embedding of `send_data_to_backend` (lines 264-291): HTTP 200 gives
`(True, result.get('message', 'Success'))`; any other status gives
`(False, f"HTTP {status}: {text}")`; a raised exception gives
`(False, f"Connection error: {e}")`. -/
def send_data_to_backend : PostOutcome → Bool × String
  | .ok status message text =>
    if status = 200 then (true, message.getD "Success")
    else (false, "HTTP " ++ toString status ++ ": " ++ text)
  | .exn err => (false, "Connection error: " ++ err)

/-- One normalized weather item.  Floats (`temp`, `wind.speed`, the
coordinates) are modelled as rationals; the mock `windSpeed`
(`round(random.uniform(0, 15), 1)`) is a rational with one decimal.
The real-API dict has no `sourceId` key, the mock one does, hence the
`Option`. -/
structure WeatherItem where
  city : String
  temperature : Rat
  description : String
  humidity : Int
  windSpeed : Rat
  pressure : Int
  source : String
  sourceId : Option String
  coordinates : Rat × Rat
  deriving DecidableEq

/-- The `base_temps` table of `generate_mock_weather_data`. -/
def base_temps : List (String × Int) :=
  [("New York", 15), ("London", 12), ("Tokyo", 18), ("Sydney", 22),
   ("Berlin", 8), ("Paris", 14), ("Los Angeles", 24), ("Chicago", 10),
   ("Toronto", 9), ("Mumbai", 28)]

/-- The fixed `conditions` vocabulary of `generate_mock_weather_data`. -/
def conditions : List String :=
  ["Clear sky", "Few clouds", "Scattered clouds", "Broken clouds",
   "Light rain", "Sunny", "Partly cloudy", "Overcast"]

/-- The `coords` table of `get_coordinates`, with its
`{'lat': 0, 'lon': 0}` fallback applied by `get_coordinates`. -/
def coords : List (String × (Rat × Rat)) :=
  [("New York", (40.7128, -74.0060)),
   ("London", (51.5074, -0.1278)),
   ("Tokyo", (35.6762, 139.6503)),
   ("Sydney", (-33.8688, 151.2093)),
   ("Berlin", (52.5200, 13.4050)),
   ("Paris", (48.8566, 2.3522)),
   ("Los Angeles", (34.0522, -118.2437)),
   ("Chicago", (41.8781, -87.6298)),
   ("Toronto", (43.6532, -79.3832)),
   ("Mumbai", (19.0760, 72.8777))]

/-- Embedding of `get_coordinates` (lines 127-141):
`coords.get(city, {'lat': 0, 'lon': 0})`. -/
def get_coordinates (city : String) : Rat × Rat :=
  (coords.lookup city).getD (0, 0)

/-- Model of `random.randint(lo, hi)` (both bounds inclusive): an
arbitrary seed reduced into the range, so every value of the seed
yields some in-range draw and every in-range draw is reachable. -/
def randint (lo hi : Int) (seed : Nat) : Int :=
  lo + ((seed % (hi - lo + 1).toNat : Nat) : Int)

/-- Model of `random.choice(l)` for a nonempty list. -/
def random_choice (l : List String) (seed : Nat) : String :=
  l.getD (seed % l.length) ""

/-- One seed per random draw made by `generate_mock_weather_data`. -/
structure MockRng where
  tempSeed : Nat := 0
  condSeed : Nat := 0
  humSeed : Nat := 0
  windSeed : Nat := 0
  presSeed : Nat := 0

/-- Model of `round(random.uniform(0, 15), 1)`: one of the 151 values
0.0, 0.1, ..., 15.0. -/
def rand_wind_speed (seed : Nat) : Rat :=
  ((seed % 151 : Nat) : Rat) / 10

/-- Embedding of `generate_mock_weather_data` (lines 96-125):
temperature is `base_temps.get(city, 15) + random.randint(-5, 10)`,
description `random.choice(conditions)`, humidity
`random.randint(40, 80)`, wind `round(random.uniform(0, 15), 1)`,
pressure `random.randint(990, 1020)`, coordinates via
`get_coordinates`. -/
def generate_mock_weather_data (city : String) (source_id : String)
    (rng : MockRng) : WeatherItem :=
  { city := city
    temperature := (((base_temps.lookup city).getD 15
      + randint (-5) 10 rng.tempSeed : Int) : Rat)
    description := random_choice conditions rng.condSeed
    humidity := randint 40 80 rng.humSeed
    windSpeed := rand_wind_speed rng.windSeed
    pressure := randint 990 1020 rng.presSeed
    source := "pathway-service-" ++ source_id
    sourceId := some source_id
    coordinates := get_coordinates city }

/-- Parsed JSON body of a successful OpenWeatherMap response, holding
exactly the fields `fetch_weather_data` reads (`data['name']`,
`data['main']`, `data['weather'][0]['description']`,
`data['wind'].get('speed', 0)`, `data['coord']`).  A 200 body missing
one of the required keys raises and is modelled by the `exn`
outcome. -/
structure ApiBody where
  name : String
  temp : Rat
  description : String
  humidity : Int
  windSpeed : Option Rat
  pressure : Int
  lat : Rat
  lon : Rat

/-- Outcome of one weather-provider GET for one city: a response with a
status and parsed body, or a raised exception (timeout, connection
error, body parse error). -/
inductive ApiOutcome where
  | ok (status : Nat) (body : ApiBody)
  | exn

/-- An XML element as produced by `xml.etree.ElementTree.fromstring`:
a tag, optional text, and child elements.  `ET.fromstring` itself is
external library code and is modelled as an oracle
`String → Option XNode`, with `none` standing for a raised
`ParseError` (malformed XML). -/
inductive XNode where
  | mk (tag : String) (text : Option String) (children : List XNode)

mutual

/-- Decidable equality of XML elements. -/
def XNode.decEq : (a b : XNode) → Decidable (a = b)
  | .mk t1 s1 c1, .mk t2 s2 c2 =>
    if ht : t1 = t2 then
      if hs : s1 = s2 then
        match XNode.decEqList c1 c2 with
        | isTrue hc => isTrue (by rw [ht, hs, hc])
        | isFalse hc => isFalse (fun h => hc (by cases h; rfl))
      else isFalse (fun h => hs (by cases h; rfl))
    else isFalse (fun h => ht (by cases h; rfl))

/-- Decidable equality of lists of XML elements. -/
def XNode.decEqList : (a b : List XNode) → Decidable (a = b)
  | [], [] => isTrue rfl
  | [], _ :: _ => isFalse (by simp)
  | _ :: _, [] => isFalse (by simp)
  | a :: as, b :: bs =>
    match XNode.decEq a b, XNode.decEqList as bs with
    | isTrue h1, isTrue h2 => isTrue (by rw [h1, h2])
    | isFalse h1, _ => isFalse (fun h => h1 (by cases h; rfl))
    | _, isFalse h2 => isFalse (fun h => h2 (by cases h; rfl))

end

instance : DecidableEq XNode := XNode.decEq

/-- Tag of an element. -/
def XNode.tag : XNode → String
  | .mk t _ _ => t

/-- Text of an element (`None` when the element has no text). -/
def XNode.text : XNode → Option String
  | .mk _ s _ => s

/-- Child elements of an element. -/
def XNode.children : XNode → List XNode
  | .mk _ _ cs => cs

mutual

/-- Matches of `element` and its descendants against a tag, in document
order (self before descendants), as ElementTree findall enumerates. -/
def desc_or_self (tag : String) : XNode → List XNode
  | .mk t s cs =>
    (if t = tag then [XNode.mk t s cs] else []) ++ desc_list tag cs

/-- Matches of a list of elements and their descendants against a tag,
in document order. -/
def desc_list (tag : String) : List XNode → List XNode
  | [] => []
  | c :: cs => desc_or_self tag c ++ desc_list tag cs

end

/-- Embedding of `root.findall('.//' + tag)`: all descendants of
`root` (excluding `root` itself) with the given tag, in document
order. -/
def findall_desc (root : XNode) (tag : String) : List XNode :=
  desc_list tag root.children

/-- Embedding of `element.find(tag)`: the first direct child with the
given tag, if any. -/
def xml_find (element : XNode) (tag : String) : Option XNode :=
  element.children.find? (fun c => c.tag == tag)

/-- Model of the Python slice `s[:n]`: the first `n` code points. -/
def pyslice (s : String) (n : Nat) : String :=
  String.mk (s.data.take n)

/-- Model of the Python string method `strip()`: remove whitespace
from both ends. -/
def pystrip (s : String) : String :=
  String.mk
    (((s.data.dropWhile Char.isWhitespace).reverse.dropWhile
        Char.isWhitespace).reverse)

/-- Embedding of `get_xml_text` (lines 225-231): try each tag in order;
return `found.text.strip()` for the first child whose text is truthy
(present and nonempty); note a whitespace-only text is truthy and
strips to the empty string. -/
def get_xml_text (element : XNode) (tag_names : List String) : Option String :=
  match tag_names with
  | [] => none
  | tag :: rest =>
    match xml_find element tag with
    | some found =>
      match found.text with
      | some s => if s = "" then get_xml_text element rest
                  else some (pystrip s)
      | none => get_xml_text element rest
    | none => get_xml_text element rest

/-- One normalized RSS article.  The Python dict key `type` is the Lean
field `itemType`; the `timestamp` key is `pub_date or now()` and only
its `pub_date` part is modelled (`none` standing for the wall-clock
fallback). -/
structure RssItem where
  title : String
  description : String
  content : String
  link : String
  pubDate : Option String
  source : String
  sourceId : String
  sourceName : String
  sourceUrl : Option String
  itemType : String
  deriving DecidableEq

/-- Extraction of one feed item inside the loop of `parse_rss_content`
(lines 192-213): candidates for each field in order, item kept only
when its title is truthy; description stripped, cut at 500 characters
and given an ellipsis when the uncut text is longer than 500. -/
def extract_rss_item (source_config : SourceConfig) (item : XNode) :
    Option RssItem :=
  let title := get_xml_text item ["title"]
  let description := get_xml_text item
    ["description", "summary", "\x7bhttp://www.w3.org/2005/Atom\x7dsummary"]
  let link := get_xml_text item
    ["link", "guid", "\x7bhttp://www.w3.org/2005/Atom\x7dlink"]
  let pub_date := get_xml_text item
    ["pubDate", "published", "\x7bhttp://www.w3.org/2005/Atom\x7dpublished"]
  match title with
  | none => none
  | some t =>
    if t = "" then none
    else some
      { title := pystrip t
        description := pyslice (pystrip (description.getD "")) 500
          ++ (if (description.getD "").length > 500 then "..." else "")
        content := t ++ "\n\n" ++ description.getD ""
        link := link.getD ""
        pubDate := pub_date
        source := "rss-" ++ source_config.sourceId
        sourceId := source_config.sourceId
        sourceName := source_config.sourceName
        sourceUrl := source_config.sourceUrl
        itemType := "rss_article" }

/-- The item nodes `parse_rss_content` iterates over: RSS 2.0 `item`
descendants, and when there are none, Atom `entry` descendants. -/
def feed_items (root : XNode) : List XNode :=
  let rss_items := findall_desc root "item"
  if rss_items.isEmpty
  then findall_desc root "\x7bhttp://www.w3.org/2005/Atom\x7dentry"
  else rss_items

/-- Embedding of `parse_rss_content` (lines 177-223).  The outer
`try` around `ET.fromstring` returns `[]` on malformed XML (`none`
input).  The per-item `try/except/continue` is modelled by the oracle
`item_exn`: an item on which the Python runtime raises contributes
nothing and the loop continues with the rest. -/
def parse_rss_content (parsed : Option XNode) (item_exn : XNode → Bool)
    (source_config : SourceConfig) : List RssItem :=
  match parsed with
  | none => []
  | some root =>
    (feed_items root).take 10 |>.filterMap fun item =>
      if item_exn item then none else extract_rss_item source_config item

/-- Embedding of `generate_mock_rss_data` (lines 233-262): exactly two
synthetic articles built from the configured source name and URL. -/
def generate_mock_rss_data (source_config : SourceConfig) : List RssItem :=
  [{ title := "Breaking: Latest updates from " ++ source_config.sourceName
     description := "Important news and updates from our RSS feed source."
     content := "Breaking: Latest updates from " ++ source_config.sourceName
       ++ "\n\nImportant news and updates from our RSS feed source."
     link := source_config.sourceUrl.getD "" ++ "/article-1"
     pubDate := none
     source := "rss-" ++ source_config.sourceId
     sourceId := source_config.sourceId
     sourceName := source_config.sourceName
     sourceUrl := source_config.sourceUrl
     itemType := "rss_article" },
   { title := "Technology Update from " ++ source_config.sourceName
     description := "Latest technology trends and innovations in the industry."
     content := "Technology Update from " ++ source_config.sourceName
       ++ "\n\nLatest technology trends and innovations in the industry."
     link := source_config.sourceUrl.getD "" ++ "/article-2"
     pubDate := none
     source := "rss-" ++ source_config.sourceId
     sourceId := source_config.sourceId
     sourceName := source_config.sourceName
     sourceUrl := source_config.sourceUrl
     itemType := "rss_article" }]

/-- Outcome of the feed GET in `fetch_rss_data`: a response with a
status and a body text, or a raised exception (timeout, connection
error). -/
inductive FeedOutcome where
  | ok (status : Nat) (content : String)
  | exn

/-- The external world as the service observes it during one sweep:
the weather provider response per city, the randomness drawn per city,
the feed response per URL, the external XML parser, the per-item
runtime-exception oracle, and the registry response. -/
structure Env where
  weatherApi : String → ApiOutcome
  rng : String → MockRng
  feedHttp : String → FeedOutcome
  fromstring : String → Option XNode
  itemExn : XNode → Bool
  registry : RegistryOutcome

/-- The per-city body of the loop in `fetch_weather_data` (lines
49-88): with a truthy, non-placeholder key and an HTTP 200, build the
item from the response body; on any other status, a raised exception,
or no usable key, fall back to `generate_mock_weather_data`. -/
def fetch_city_weather (env : Env) (source_config : SourceConfig)
    (city : String) : WeatherItem :=
  let mock := generate_mock_weather_data city source_config.sourceId
    (env.rng city)
  match source_config.config.apiKey with
  | none => mock
  | some k =>
    if k ≠ "" ∧ k ≠ "demo-key" then
      match env.weatherApi city with
      | .ok status body =>
        if status = 200 then
          { city := body.name
            temperature := body.temp
            description := body.description
            humidity := body.humidity
            windSpeed := body.windSpeed.getD 0
            pressure := body.pressure
            source := "openweathermap-api-" ++ source_config.sourceId
            sourceId := none
            coordinates := (body.lat, body.lon) }
        else mock
      | .exn => mock
    else mock

/-- Embedding of `fetch_weather_data` (lines 41-94): one item per city
of `config.get('cities', ['New York'])`, each city handled
independently with its own fallback. -/
def fetch_weather_data (env : Env) (source_config : SourceConfig) :
    List WeatherItem :=
  (source_config.config.cities.getD ["New York"]).map
    (fetch_city_weather env source_config)

/-- Embedding of `fetch_rss_data` (lines 143-175): a falsy
`sourceUrl` returns `[]`; an HTTP 200 body is parsed, an empty parse
falls back to the mock articles; any other status or a raised
exception falls back to the mock articles. -/
def fetch_rss_data (env : Env) (source_config : SourceConfig) :
    List RssItem :=
  match source_config.sourceUrl with
  | none => []
  | some u =>
    if u = "" then []
    else
      match env.feedHttp u with
      | .ok status content =>
        if status = 200 then
          let rss_items := parse_rss_content (env.fromstring content)
            env.itemExn source_config
          if rss_items.isEmpty then generate_mock_rss_data source_config
          else rss_items
        else generate_mock_rss_data source_config
      | .exn => generate_mock_rss_data source_config

/-- The effectful calls a sweep makes on behalf of a source: one
invocation of a fetch strategy, and one backend POST per delivered
item.  Logging is not modelled. -/
inductive Event where
  | fetchCall (sourceId : String)
  | deliverCall (sourceId : String)
  deriving DecidableEq

/-- Embedding of `process_source` (lines 293-329) as its trace of
effectful calls: dispatch the fetch strategy on `sourceType`
(unsupported types return with no fetch), skip delivery entirely when
the strategy returned no items, otherwise POST each item to the
backend.  The per-item success accounting only feeds logging and is
not modelled. -/
def process_source (env : Env) (source_config : SourceConfig) :
    List Event :=
  if source_config.sourceType = "weather" then
    let data_items := fetch_weather_data env source_config
    Event.fetchCall source_config.sourceId ::
      (if data_items.isEmpty then []
       else data_items.map fun _ => Event.deliverCall source_config.sourceId)
  else if source_config.sourceType = "rss"
      ∨ source_config.sourceType = "news" then
    let data_items := fetch_rss_data env source_config
    Event.fetchCall source_config.sourceId ::
      (if data_items.isEmpty then []
       else data_items.map fun _ => Event.deliverCall source_config.sourceId)
  else []

/-- The per-source step of `run_source_monitoring` (lines 352-382):
only a `processed` decision reaches `process_source`; inactive and
not-yet-due sources produce no effectful call. -/
def sweep_source (env : Env) (now : Int) (s : SourceConfig) :
    List Event :=
  match due_decision now s with
  | .processed => process_source env s
  | _ => []

/-- Result of one iteration of the `while True` loop of
`run_source_monitoring`: the effectful calls made and the sleep before
the next iteration. -/
structure SweepResult where
  events : List Event
  sleepSeconds : Nat
  deriving DecidableEq

/-- One iteration of `run_source_monitoring` (lines 337-386): fetch
the registered sources; an empty list sleeps 30 seconds and restarts
the loop; otherwise every source is examined in order and the loop
sleeps 60 seconds. -/
def run_sweep (env : Env) (now : Int) : SweepResult :=
  let sources := get_registered_sources env.registry
  if sources.isEmpty then { events := [], sleepSeconds := 30 }
  else
    { events := (sources.map (sweep_source env now)).flatten
      sleepSeconds := 60 }

/-!  Concrete fixtures used to instantiate the theorems below. -/

/-- An environment in which every external call fails and every random
seed is zero. -/
def env0 : Env :=
  { weatherApi := fun _ => .exn
    rng := fun _ => {}
    feedHttp := fun _ => .exn
    fromstring := fun _ => none
    itemExn := fun _ => false
    registry := .exn }

/-- An eligible weather source last ingested at time 0 with a
300-second interval. -/
def srcDue : SourceConfig :=
  { sourceId := "w1", sourceType := "weather", sourceName := "Weather One"
    status := some "active", isActive := some true
    ingestionInterval := some 300, lastIngestedAt := some 0 }

/-- A weather source whose status is not active. -/
def srcPaused : SourceConfig :=
  { sourceId := "w2", sourceType := "weather", sourceName := "Weather Two"
    status := some "paused", isActive := some true }

/-- A weather source in synthetic mode (placeholder API key) with two
explicit cities. -/
def srcDemo : SourceConfig :=
  { sourceId := "w3", sourceType := "weather", sourceName := "Weather Three"
    config := { cities := some ["New York", "Paris"], apiKey := some "demo-key" }
    status := some "active", isActive := some true }

/-- A weather source with an explicitly empty city list. -/
def srcNoCities : SourceConfig :=
  { sourceId := "w4", sourceType := "weather", sourceName := "Weather Four"
    config := { cities := some [] } }

/-- A registered RSS source. -/
def srcRss : SourceConfig :=
  { sourceId := "r1", sourceType := "rss", sourceName := "Feed One"
    sourceUrl := some "http://feeds.example.com/rss" }

/-- A well-formed RSS 2.0 document with 15 titled items. -/
def doc15 : XNode :=
  XNode.mk "rss" none
    [XNode.mk "channel" none
      ((List.range 15).map fun i =>
        XNode.mk "item" none
          [XNode.mk "title" (some ("Headline " ++ toString i)) []])]

/-- A document with no item and no entry nodes. -/
def docEmpty : XNode :=
  XNode.mk "rss" none [XNode.mk "channel" none []]

/-- A feed item with a description but no title. -/
def itemNoTitle : XNode :=
  XNode.mk "item" none
    [XNode.mk "description" (some "No headline here.") []]

/-- A 600-character description text. -/
def d600 : String :=
  String.mk (List.replicate 600 'a')

/-- A feed item whose description has 600 characters. -/
def item600 : XNode :=
  XNode.mk "item" none
    [XNode.mk "title" (some "Story") [],
     XNode.mk "description" (some d600) []]

/-- A feed item (one child) on which per-item extraction is made to
raise by the oracle below. -/
def badItem : XNode :=
  XNode.mk "item" none [XNode.mk "title" (some "Bad") []]

/-- A feed item (two children) that extracts cleanly. -/
def goodItem : XNode :=
  XNode.mk "item" none
    [XNode.mk "title" (some "Good") [],
     XNode.mk "link" (some "http://x/1") []]

/-- A feed holding the raising item before the clean one. -/
def rootMixed : XNode :=
  XNode.mk "rss" none [XNode.mk "channel" none [badItem, goodItem]]

/-- A per-item exception oracle that raises exactly on one-child
items, hence on `badItem` and not on `goodItem`. -/
def exnOneChild (x : XNode) : Bool :=
  x.children.length == 1

/-- The normalized article extracted from `goodItem` for `srcRss`. -/
def goodArticle : RssItem :=
  { title := "Good", description := "", content := "Good\n\n"
    link := "http://x/1", pubDate := none, source := "rss-r1"
    sourceId := "r1", sourceName := "Feed One"
    sourceUrl := some "http://feeds.example.com/rss"
    itemType := "rss_article" }

/-!  Helper lemmas about the randomness model. -/

/-- Every draw of `randint lo hi` lies in the inclusive range, the
contract of `random.randint`. -/
theorem randint_range (lo hi : Int) (seed : Nat) (h : lo ≤ hi) :
    lo ≤ randint lo hi seed ∧ randint lo hi seed ≤ hi := by
  unfold randint
  have h1 : seed % (hi - lo + 1).toNat < (hi - lo + 1).toNat :=
    Nat.mod_lt _ (by omega)
  omega

/-- Every draw of the mock wind speed lies in `[0, 15]`. -/
theorem rand_wind_speed_range (seed : Nat) :
    0 ≤ rand_wind_speed seed ∧ rand_wind_speed seed ≤ 15 := by
  unfold rand_wind_speed
  constructor
  · positivity
  · have h2 : ((seed % 151 : Nat) : Rat) ≤ 150 := by
      exact_mod_cast Nat.le_of_lt_succ (Nat.mod_lt _ (by norm_num))
    linarith

/-- Every draw of `random_choice` from a nonempty list is a member of
the list, the contract of `random.choice`. -/
theorem random_choice_mem (l : List String) (seed : Nat) (h : l ≠ []) :
    random_choice l seed ∈ l := by
  unfold random_choice
  have hl : 0 < l.length := List.length_pos.mpr h
  have hlt : seed % l.length < l.length := Nat.mod_lt _ hl
  rw [List.getD_eq_getElem?_getD, List.getElem?_eq_getElem hlt]
  exact List.getElem_mem hlt

/-- C1: for an eligible source (`status == "active"` and truthy
`isActive`), the sweep processes it iff `lastIngestedAt` is absent or
`now - lastIngestedAt >= ingestionInterval` (default 300); the
boundary is inclusive and a strictly smaller elapsed time skips the
source as not yet due. -/
theorem due_decision_boundary_inclusive (now : Int) (s : SourceConfig)
    (hstat : s.status = some "active") (hact : s.isActive = some true) :
    (s.lastIngestedAt = none → due_decision now s = .processed)
    ∧ (∀ t, s.lastIngestedAt = some t →
        ((due_decision now s = .processed ↔
           now - t ≥ s.ingestionInterval.getD 300)
         ∧ (now - t < s.ingestionInterval.getD 300 →
            due_decision now s = .notDue))) := by
  have hcond : s.status = some "active" ∧ s.isActive = some true :=
    ⟨hstat, hact⟩
  constructor
  · intro h
    simp only [due_decision, if_pos hcond, h]
  · intro t ht
    simp only [due_decision, if_pos hcond, ht]
    refine ⟨⟨?_, ?_⟩, ?_⟩
    · intro h
      by_contra hlt
      rw [if_neg hlt] at h
      exact Decision.noConfusion h
    · intro h
      rw [if_pos h]
    · intro h
      rw [if_neg (by omega)]

/-- Witness for C1 at a concrete eligible source and the exact
boundary instant `now = lastIngestedAt + interval`. -/
theorem due_decision_boundary_inclusive_witness :
    srcDue.status = some "active" ∧ srcDue.isActive = some true
    ∧ ((srcDue.lastIngestedAt = none → due_decision 300 srcDue = .processed)
       ∧ (∀ t, srcDue.lastIngestedAt = some t →
           ((due_decision 300 srcDue = .processed ↔
              (300 : Int) - t ≥ srcDue.ingestionInterval.getD 300)
            ∧ ((300 : Int) - t < srcDue.ingestionInterval.getD 300 →
               due_decision 300 srcDue = .notDue)))) :=
  ⟨rfl, rfl, due_decision_boundary_inclusive 300 srcDue rfl rfl⟩

/-- C6: the delivery client returns `success == true` exactly on HTTP
200, with the body message field (default `"Success"`); any other
status, connection failure, or timeout yields `success == false` with
a descriptive message, and no case raises. -/
theorem send_data_success_iff (m : Option String) (t e : String) (s : Nat) :
    send_data_to_backend (.ok 200 m t) = (true, m.getD "Success")
    ∧ (s ≠ 200 →
        send_data_to_backend (.ok s m t)
          = (false, "HTTP " ++ toString s ++ ": " ++ t))
    ∧ send_data_to_backend (.exn e) = (false, "Connection error: " ++ e)
    ∧ (∀ o : PostOutcome, (send_data_to_backend o).1 = true ↔
        ∃ m2 t2, o = .ok 200 m2 t2) := by
  refine ⟨by simp [send_data_to_backend], ?_, rfl, ?_⟩
  · intro h
    simp [send_data_to_backend, h]
  · intro o
    cases o with
    | ok st m2 t2 =>
      by_cases h : st = 200
      · subst h
        simp [send_data_to_backend]
      · simp [send_data_to_backend, h]
    | exn err => simp [send_data_to_backend]

/-- Witness for C6: a simulated 500 fails with its descriptive
message, a simulated 200 with body message `"ok"` succeeds with
message `"ok"`. -/
theorem send_data_success_iff_witness :
    (500 : Nat) ≠ 200
    ∧ send_data_to_backend (.ok 500 (some "ok") "boom")
        = (false, "HTTP 500: boom")
    ∧ send_data_to_backend (.ok 200 (some "ok") "x") = (true, "ok") := by
  refine ⟨by decide, ?_, ?_⟩
  · rw [(send_data_success_iff (some "ok") "boom" "" 500).2.1 (by decide)]
    rfl
  · rw [(send_data_success_iff (some "ok") "x" "" 500).1]
    rfl

/-- C7: a registry transport failure or non-200 response yields the
empty source list, and the sweep then performs no fetch or delivery
call and sleeps the short 30-second idle wait before restarting. -/
theorem registry_failure_idle_sweep (env : Env) (now : Int)
    (h : ∀ srcs, env.registry ≠ RegistryOutcome.ok 200 srcs) :
    get_registered_sources env.registry = []
    ∧ run_sweep env now = { events := [], sleepSeconds := 30 } := by
  have hg : get_registered_sources env.registry = [] := by
    cases henv : env.registry with
    | ok st srcs =>
      by_cases h200 : st = 200
      · subst h200
        exact absurd henv (h srcs)
      · simp [get_registered_sources, h200]
    | exn => rfl
  exact ⟨hg, by simp [run_sweep, hg]⟩

/-- Witness for C7 at an environment whose registry call raises. -/
theorem registry_failure_idle_sweep_witness :
    get_registered_sources env0.registry = []
    ∧ run_sweep env0 0 = { events := [], sleepSeconds := 30 } :=
  registry_failure_idle_sweep env0 0 (fun srcs h => by simp [env0] at h)

/-- C8: a source with `isActive` not truthy or `status != "active"`
is decided inactive and contributes zero fetch calls and zero
delivery calls to the sweep. -/
theorem ineligible_source_no_calls (env : Env) (now : Int)
    (s : SourceConfig)
    (h : ¬ (s.status = some "active" ∧ s.isActive = some true)) :
    due_decision now s = .inactive ∧ sweep_source env now s = [] := by
  have hd : due_decision now s = .inactive := by
    unfold due_decision
    rw [if_neg h]
  exact ⟨hd, by simp [sweep_source, hd]⟩

/-- Witness for C8 at a concrete paused source. -/
theorem ineligible_source_no_calls_witness :
    ¬ (srcPaused.status = some "active" ∧ srcPaused.isActive = some true)
    ∧ due_decision 0 srcPaused = .inactive
    ∧ sweep_source env0 0 srcPaused = [] :=
  ⟨by decide, ineligible_source_no_calls env0 0 srcPaused (by decide)⟩

/-- C10: a weather source whose config carries an explicitly empty
`cities` list makes the weather strategy return the empty list, and
`process_source` then issues the fetch but no delivery call. -/
theorem empty_cities_no_delivery (env : Env) (cfg : SourceConfig)
    (htype : cfg.sourceType = "weather")
    (hc : cfg.config.cities = some []) :
    fetch_weather_data env cfg = []
    ∧ process_source env cfg = [Event.fetchCall cfg.sourceId] := by
  have hf : fetch_weather_data env cfg = [] := by
    simp [fetch_weather_data, hc]
  refine ⟨hf, ?_⟩
  simp [process_source, htype, hf]

/-- Witness for C10 at a concrete weather source with an empty city
list. -/
theorem empty_cities_no_delivery_witness :
    srcNoCities.sourceType = "weather"
    ∧ srcNoCities.config.cities = some []
    ∧ fetch_weather_data env0 srcNoCities = []
    ∧ process_source env0 srcNoCities
        = [Event.fetchCall srcNoCities.sourceId] :=
  ⟨rfl, rfl, empty_cities_no_delivery env0 srcNoCities rfl rfl⟩

/-- C2: the weather strategy is total over every environment (one
item per requested city no matter how the provider behaves), and with
an absent or placeholder `"demo-key"` API key it returns exactly the
synthetic item of each requested city, hence nonempty output whose
cities all match requested cities whenever the (defaulted) city list
is nonempty. -/
theorem fetch_weather_never_raises (env : Env) (cfg : SourceConfig) :
    (fetch_weather_data env cfg).length
      = (cfg.config.cities.getD ["New York"]).length
    ∧ ((cfg.config.apiKey = none ∨ cfg.config.apiKey = some "demo-key") →
        fetch_weather_data env cfg
          = (cfg.config.cities.getD ["New York"]).map
              (fun city =>
                generate_mock_weather_data city cfg.sourceId (env.rng city))
        ∧ (cfg.config.cities.getD ["New York"] ≠ [] →
            fetch_weather_data env cfg ≠ []
            ∧ ∀ w ∈ fetch_weather_data env cfg,
                w.city ∈ cfg.config.cities.getD ["New York"])) := by
  constructor
  · simp [fetch_weather_data]
  · intro hk
    have hmock : ∀ city, fetch_city_weather env cfg city
        = generate_mock_weather_data city cfg.sourceId (env.rng city) := by
      intro city
      rcases hk with h | h <;> simp [fetch_city_weather, h]
    have hmap : fetch_weather_data env cfg
        = (cfg.config.cities.getD ["New York"]).map
            (fun city =>
              generate_mock_weather_data city cfg.sourceId (env.rng city)) := by
      unfold fetch_weather_data
      exact List.map_congr_left (fun city _ => hmock city)
    refine ⟨hmap, ?_⟩
    intro hne
    constructor
    · rw [hmap]
      simpa using hne
    · intro w hw
      rw [hmap] at hw
      rcases List.mem_map.mp hw with ⟨city, hcity, hweq⟩
      rw [← hweq]
      simpa [generate_mock_weather_data] using hcity

/-- Witness for C2 at a demo-key source with two cities and an
environment whose provider calls all raise. -/
theorem fetch_weather_never_raises_witness :
    (srcDemo.config.apiKey = none ∨ srcDemo.config.apiKey = some "demo-key")
    ∧ srcDemo.config.cities.getD ["New York"] ≠ []
    ∧ fetch_weather_data env0 srcDemo ≠ []
    ∧ ∀ w ∈ fetch_weather_data env0 srcDemo,
        w.city ∈ srcDemo.config.cities.getD ["New York"] := by
  have h := ((fetch_weather_never_raises env0 srcDemo).2 (Or.inr rfl)).2
    (by decide)
  exact ⟨Or.inr rfl, by decide, h.1, h.2⟩

/-- C9: every synthetic weather item has temperature equal to the
base-table value of its city (15 when unknown) plus an offset in
`[-5, 10]`, a condition from the fixed vocabulary, humidity in
`[40, 80]`, wind speed in `[0, 15]`, pressure in `[990, 1020]`, and
coordinates from the built-in table with fallback `(0, 0)` for
unknown cities. -/
theorem mock_weather_realistic (city source_id : String) (rng : MockRng) :
    (∃ off : Int, -5 ≤ off ∧ off ≤ 10 ∧
      (generate_mock_weather_data city source_id rng).temperature
        = (((base_temps.lookup city).getD 15 + off : Int) : Rat))
    ∧ (generate_mock_weather_data city source_id rng).description ∈ conditions
    ∧ (40 ≤ (generate_mock_weather_data city source_id rng).humidity
       ∧ (generate_mock_weather_data city source_id rng).humidity ≤ 80)
    ∧ (0 ≤ (generate_mock_weather_data city source_id rng).windSpeed
       ∧ (generate_mock_weather_data city source_id rng).windSpeed ≤ 15)
    ∧ (990 ≤ (generate_mock_weather_data city source_id rng).pressure
       ∧ (generate_mock_weather_data city source_id rng).pressure ≤ 1020)
    ∧ (generate_mock_weather_data city source_id rng).coordinates
        = get_coordinates city
    ∧ (coords.lookup city = none →
        (generate_mock_weather_data city source_id rng).coordinates = (0, 0))
    ∧ (base_temps.lookup city = none →
        (generate_mock_weather_data city source_id rng).temperature
          = ((15 + randint (-5) 10 rng.tempSeed : Int) : Rat)) := by
  refine ⟨⟨randint (-5) 10 rng.tempSeed,
      (randint_range (-5) 10 rng.tempSeed (by norm_num)).1,
      (randint_range (-5) 10 rng.tempSeed (by norm_num)).2, rfl⟩,
    ?_, ?_, ?_, ?_, rfl, ?_, ?_⟩
  · exact random_choice_mem conditions rng.condSeed (by decide)
  · exact randint_range 40 80 rng.humSeed (by norm_num)
  · exact rand_wind_speed_range rng.windSeed
  · exact randint_range 990 1020 rng.presSeed (by norm_num)
  · intro h
    simp [generate_mock_weather_data, get_coordinates, h]
  · intro h
    simp [generate_mock_weather_data, h]

/-- Witness for C9 at a city absent from both built-in tables. -/
theorem mock_weather_realistic_witness :
    coords.lookup "Atlantis" = none
    ∧ base_temps.lookup "Atlantis" = none
    ∧ (generate_mock_weather_data "Atlantis" "w9" {}).coordinates = (0, 0)
    ∧ (generate_mock_weather_data "Atlantis" "w9" {}).temperature
        = ((15 + randint (-5) 10 (({} : MockRng)).tempSeed : Int) : Rat) := by
  have h := mock_weather_realistic "Atlantis" "w9" {}
  exact ⟨by decide, by decide, h.2.2.2.2.2.2.1 (by decide),
    h.2.2.2.2.2.2.2 (by decide)⟩

/-- C3: for a registered RSS source (truthy `sourceUrl`), an HTTP
failure, a raised exception, or a parse that yields zero items each
substitute exactly the two synthetic articles built from the
configured name and URL; and the strategy output is nonempty under
every environment. -/
theorem fetch_rss_nonempty_fallback (env : Env) (cfg : SourceConfig)
    (u : String) (hu : cfg.sourceUrl = some u) (hne : u ≠ "") :
    (∀ status content, env.feedHttp u = .ok status content →
        status ≠ 200 →
        fetch_rss_data env cfg = generate_mock_rss_data cfg)
    ∧ (env.feedHttp u = .exn →
        fetch_rss_data env cfg = generate_mock_rss_data cfg)
    ∧ (∀ content, env.feedHttp u = .ok 200 content →
        parse_rss_content (env.fromstring content) env.itemExn cfg = [] →
        fetch_rss_data env cfg = generate_mock_rss_data cfg)
    ∧ ((generate_mock_rss_data cfg).length = 2
       ∧ (generate_mock_rss_data cfg).map RssItem.title
           = ["Breaking: Latest updates from " ++ cfg.sourceName,
              "Technology Update from " ++ cfg.sourceName]
       ∧ (generate_mock_rss_data cfg).map RssItem.link
           = [u ++ "/article-1", u ++ "/article-2"])
    ∧ fetch_rss_data env cfg ≠ [] := by
  refine ⟨?_, ?_, ?_, ⟨rfl, by simp [generate_mock_rss_data],
    by simp [generate_mock_rss_data, hu]⟩, ?_⟩
  · intro status content hc h200
    simp [fetch_rss_data, hu, hne, hc, h200]
  · intro hc
    simp [fetch_rss_data, hu, hne, hc]
  · intro content hc hp
    simp [fetch_rss_data, hu, hne, hc, hp]
  · cases henv : env.feedHttp u with
    | ok st content =>
      by_cases h200 : st = 200
      · subst h200
        by_cases hp : parse_rss_content (env.fromstring content)
            env.itemExn cfg = []
        · simp [fetch_rss_data, hu, hne, henv, hp, generate_mock_rss_data]
        · simp [fetch_rss_data, hu, hne, henv, hp]
      · simp [fetch_rss_data, hu, hne, henv, h200, generate_mock_rss_data]
    | exn => simp [fetch_rss_data, hu, hne, henv, generate_mock_rss_data]

/-- Witness for C3 at a registered RSS source whose feed fetch
raises. -/
theorem fetch_rss_nonempty_fallback_witness :
    srcRss.sourceUrl = some "http://feeds.example.com/rss"
    ∧ "http://feeds.example.com/rss" ≠ ""
    ∧ env0.feedHttp "http://feeds.example.com/rss" = .exn
    ∧ fetch_rss_data env0 srcRss = generate_mock_rss_data srcRss
    ∧ fetch_rss_data env0 srcRss ≠ [] := by
  have h := fetch_rss_nonempty_fallback env0 srcRss
    "http://feeds.example.com/rss" rfl (by decide)
  exact ⟨rfl, by decide, rfl, h.2.1 rfl, h.2.2.2.2⟩

/-- C4: the parser extracts at most the first 10 matched items (and
exactly 10 from a well-formed RSS 2.0 document with 15 titled items),
yields the empty list when no item or entry node matches, drops any
item lacking a title, and truncates a 600-character description to
500 characters plus an ellipsis marker. -/
theorem parse_rss_output_shape (exn : XNode → Bool) (cfg : SourceConfig) :
    (∀ parsed, (parse_rss_content parsed exn cfg).length ≤ 10)
    ∧ (parse_rss_content (some doc15) (fun _ => false) srcRss).length = 10
    ∧ (∀ root, findall_desc root "item" = [] →
        findall_desc root "\x7bhttp://www.w3.org/2005/Atom\x7dentry" = [] →
        parse_rss_content (some root) exn cfg = [])
    ∧ (∀ item, get_xml_text item ["title"] = none →
        extract_rss_item cfg item = none)
    ∧ ((extract_rss_item srcRss item600).map RssItem.description
         = some (String.mk (List.replicate 500 'a') ++ "...")
       ∧ d600.length = 600) := by
  refine ⟨?_, by decide, ?_, ?_, by decide, by decide⟩
  · intro parsed
    cases parsed with
    | none => simp [parse_rss_content]
    | some root =>
      calc (parse_rss_content (some root) exn cfg).length
          ≤ ((feed_items root).take 10).length :=
            List.length_filterMap_le _ _
        _ ≤ 10 := List.length_take_le _ _
  · intro root h1 h2
    simp [parse_rss_content, feed_items, h1, h2]
  · intro item h
    simp [extract_rss_item, h]

/-- Witness for C4 at a document with no item or entry nodes and at
an item without a title. -/
theorem parse_rss_output_shape_witness :
    findall_desc docEmpty "item" = []
    ∧ findall_desc docEmpty "\x7bhttp://www.w3.org/2005/Atom\x7dentry" = []
    ∧ parse_rss_content (some docEmpty) exnOneChild srcRss = []
    ∧ get_xml_text itemNoTitle ["title"] = none
    ∧ extract_rss_item srcRss itemNoTitle = none := by
  have h := parse_rss_output_shape exnOneChild srcRss
  exact ⟨by decide, by decide, h.2.2.1 docEmpty (by decide) (by decide),
    by decide, h.2.2.2.1 itemNoTitle (by decide)⟩

/-- C5: the parser never raises: malformed XML (a raised
`ET.ParseError`, the `none` input) yields the empty list, and a
runtime failure while extracting one item is caught per item, so
every cleanly extracting item of the first 10 still appears in the
output whatever happens to the other items. -/
theorem parse_rss_item_isolation (exn : XNode → Bool) (cfg : SourceConfig) :
    parse_rss_content none exn cfg = []
    ∧ (∀ root item r, item ∈ (feed_items root).take 10 →
        exn item = false →
        extract_rss_item cfg item = some r →
        r ∈ parse_rss_content (some root) exn cfg) := by
  refine ⟨rfl, ?_⟩
  intro root item r hmem hexn hext
  unfold parse_rss_content
  exact List.mem_filterMap.mpr ⟨item, hmem, by simp [hexn, hext]⟩

/-- Witness for C5: in a feed whose first item raises during
extraction, the clean second item still reaches the output. -/
theorem parse_rss_item_isolation_witness :
    goodItem ∈ (feed_items rootMixed).take 10
    ∧ exnOneChild goodItem = false
    ∧ extract_rss_item srcRss goodItem = some goodArticle
    ∧ goodArticle ∈ parse_rss_content (some rootMixed) exnOneChild srcRss := by
  have h := (parse_rss_item_isolation exnOneChild srcRss).2 rootMixed
    goodItem goodArticle (by decide) (by decide) (by decide)
  exact ⟨by decide, by decide, by decide, h⟩




